import Mathlib

/-!
Verification of the lynceus-platform repository against its specification.

The development shallowly embeds the two crates:

* `KinematicsController` models `src/kinematics-controller/src/kinematics.rs`
  (and its error enums from `errors.rs`).  The crate computes with
  `rust_decimal::Decimal` and `f64`; both are modelled by `ℝ`, with the IEEE
  operations `%` (fmod), `atan2`, `acos` and the decimal rounding
  `round_dp(4)` given explicit definitions below.  Division by zero follows
  the Lean convention `x / 0 = 0`; wherever a theorem depends on such a point
  the surrounding comment records what the IEEE source computes there
  (an infinity or a NaN, which `ℝ` cannot represent).

* `MaestroControl` models `src/maestro-control/src/maestro.rs` and
  `error.rs`.  The serial port is modelled by an abstract `SerialPort` record
  saying whether a write succeeds and what two bytes a read returns, and each
  operation returns the `Except` result of the source function together with
  the list of byte frames it wrote to the port.
-/

namespace KinematicsController

/-- Truncation toward zero, the rounding used by the C `fmod` function that
implements the Rust `%` operator on `f64`. -/
noncomputable def trunc (x : ℝ) : ℤ :=
  if 0 ≤ x then ⌊x⌋ else ⌈x⌉

/-- The Rust expression `x % 1.0` on `f64`: the fmod remainder, which keeps
the sign of the dividend and has absolute value below 1. -/
noncomputable def fmod1 (x : ℝ) : ℝ :=
  x - trunc x

/-- The libm `atan2(y, x)` function on real arguments (signed zeros do not
exist in `ℝ`; at `x = 0, y = 0` the value is 0, matching `atan2(+0.0, +0.0)`). -/
noncomputable def atan2 (y x : ℝ) : ℝ :=
  if 0 < x then Real.arctan (y / x)
  else if x < 0 then
    if 0 ≤ y then Real.arctan (y / x) + Real.pi
    else Real.arctan (y / x) - Real.pi
  else
    if 0 < y then Real.pi / 2
    else if y < 0 then -(Real.pi / 2)
    else 0

/-- Round to the nearest integer, ties to the even neighbour: the default
`MidpointNearestEven` strategy of `rust_decimal::Decimal::round_dp`. -/
noncomputable def round_half_even (x : ℝ) : ℤ :=
  if Int.fract x < 1 / 2 then ⌊x⌋
  else if 1 / 2 < Int.fract x then ⌊x⌋ + 1
  else if Even ⌊x⌋ then ⌊x⌋ else ⌊x⌋ + 1

/-- The `Decimal::round_dp(4)` call applied to every rotation-matrix entry:
round to 4 decimal places. -/
noncomputable def roundDp4 (x : ℝ) : ℝ :=
  (round_half_even (x * 10000) : ℝ) / 10000

lemma round_half_even_intCast (n : ℤ) : round_half_even (n : ℝ) = n := by
  unfold round_half_even
  rw [Int.fract_intCast, Int.floor_intCast]
  norm_num

lemma roundDp4_of_mul_eq_intCast (x : ℝ) (n : ℤ) (h : x * 10000 = (n : ℝ)) :
    roundDp4 x = (n : ℝ) / 10000 := by
  unfold roundDp4
  rw [h, round_half_even_intCast]

@[simp] lemma roundDp4_zero : roundDp4 0 = 0 := by
  have h := roundDp4_of_mul_eq_intCast 0 0 (by norm_num)
  simpa using h

@[simp] lemma roundDp4_one : roundDp4 1 = 1 := by
  have h := roundDp4_of_mul_eq_intCast 1 10000 (by norm_num)
  rw [h]; norm_num

@[simp] lemma roundDp4_neg_one : roundDp4 (-1) = -1 := by
  have h := roundDp4_of_mul_eq_intCast (-1) (-10000) (by norm_num)
  rw [h]; norm_num

/-- The struct `Point(Decimal, Decimal, Decimal)`, commented `(X, Y, Z)` in the
source. -/
structure Point where
  x : ℝ
  y : ℝ
  z : ℝ

/-- The struct `Orientation(Decimal, Decimal, Decimal)`, commented
`(Roll, Pitch, Yaw) In radians` in the source. -/
structure Orientation where
  roll : ℝ
  pitch : ℝ
  yaw : ℝ

/-- The enum `MotorId` with variants `One` through `Six`. -/
inductive MotorId
  | One | Two | Three | Four | Five | Six

/-- The enum `Direction` with variants `Left` and `Right`. -/
inductive Direction
  | Left
  | Right

/-- The struct `Motor { position, motor_id, direction }`. -/
structure Motor where
  position : Point
  motor_id : MotorId
  direction : Direction

/-- The struct `Platform { center, arm_positions: [Point; 6] }`. -/
structure Platform where
  center : Point
  arm_positions : Fin 6 → Point

/-- The struct `Kinematics { top_leg_length, bottom_leg_length, motors: [Motor; 6] }`. -/
structure Kinematics where
  top_leg_length : ℝ
  bottom_leg_length : ℝ
  motors : Fin 6 → Motor

/-- The enum `KinematicsError` from `errors.rs`.  No function in
`kinematics.rs` constructs or returns a value of this type: `calc_servo_pos`
returns a bare `f64` and `inverse_kinematics` a bare `Array1<f64>`. -/
inductive KinematicsError
  | InvalidTargetPosition
  | InvalidTargetOrientation

/-- The enum `MathError` from `errors.rs`. -/
inductive MathError
  | InvalidFloatConversion
  | InvalidAngle

/-- The function `l2_norm(x: Array1<f64>) -> f64 { x.dot(&x).sqrt() }`:
the square root of the sum of squares of the entries. -/
noncomputable def l2_norm (v : List ℝ) : ℝ :=
  Real.sqrt ((v.map (fun a => a * a)).sum)

/-- The `impl Sub for Point`: componentwise subtraction. -/
noncomputable def Point.sub (a b : Point) : Point :=
  ⟨a.x - b.x, a.y - b.y, a.z - b.z⟩

/-- The `let phi = ...` binding inside `Kinematics::calc_servo_pos`:

  `(l2_norm(ep) + (bottom_leg_length.powf(2.0) - top_leg_length.powf(2.0)))
     / (2.0 * bottom_leg_length * l2_norm(temp))`

with `ep = [x, y, z]` and `temp = [ep[0], ep[1]]`.  Note the source adds the
UNSQUARED norm `l2_norm(ep)` in the numerator. -/
noncomputable def servo_phi (k : Kinematics) (ep : Point) : ℝ :=
  (l2_norm [ep.x, ep.y, ep.z] + (k.bottom_leg_length ^ 2 - k.top_leg_length ^ 2)) /
    (2 * k.bottom_leg_length * l2_norm [ep.x, ep.y])

/-- The function `Kinematics::calc_servo_pos(&self, end_pos, dir) -> f64`.
The source converts the `Decimal` point to `f64` (modelled as the identity on
`ℝ`), forms `phi` (see `servo_phi`), and returns
`atan2(ep[2], ep[1]) + acos(phi % 1.0)` for `Direction::Left` and
`atan2(ep[2], ep[1]) - acos(phi % 1.0)` for `Direction::Right`.  There is no
error branch: the return type is `f64`, and the acos argument is wrapped by
the fmod operation `% 1.0` rather than range-checked. -/
noncomputable def Kinematics.calc_servo_pos (k : Kinematics) (end_pos : Point)
    (dir : Direction) : ℝ :=
  match dir with
  | Direction.Left => atan2 end_pos.z end_pos.y + Real.arccos (fmod1 (servo_phi k end_pos))
  | Direction.Right => atan2 end_pos.z end_pos.y - Real.arccos (fmod1 (servo_phi k end_pos))

/-- The function `Kinematics::calc_rot_matrix(alpha, beta, gamma)`, embedded
entry for entry from the source `arr2` literal, each entry under
`round_dp(4)`.  The parameter comment in the source says `gamma: angle of
roll, beta: angle of pitch, alpha: angle of yaw`, but the single call site
(`inverse_kinematics`) passes `(orientation.0, orientation.1, orientation.2)`
= `(roll, pitch, yaw)` positionally, so `alpha` receives the roll angle.
Entry `(0,1)` of the source reads `... - gamma.sin() * alpha.sin()`
(`sin γ · sin α`, not the `sin α · cos γ` of the documented formula). -/
noncomputable def calc_rot_matrix (alpha beta gamma : ℝ) : Matrix (Fin 3) (Fin 3) ℝ :=
  !![roundDp4 (Real.cos alpha * Real.cos beta),
     roundDp4 (Real.cos alpha * Real.sin beta * Real.sin gamma - Real.sin gamma * Real.sin alpha),
     roundDp4 (Real.sin alpha * Real.sin gamma + Real.cos alpha * Real.cos gamma * Real.sin beta);
     roundDp4 (Real.cos beta * Real.sin alpha),
     roundDp4 (Real.cos alpha * Real.cos gamma + Real.sin alpha * Real.sin beta * Real.sin gamma),
     roundDp4 (Real.cos gamma * Real.sin alpha * Real.sin beta - Real.cos alpha * Real.sin gamma);
     roundDp4 (-Real.sin beta),
     roundDp4 (Real.cos beta * Real.sin gamma),
     roundDp4 (Real.cos beta * Real.cos gamma)]

/-- Modelled from the spec, section 4.1: the rotation matrix
`R = Rz(alpha) * Ry(beta) * Rx(gamma)` with `alpha` = yaw, `beta` = pitch,
`gamma` = roll, given by the entry-wise formula of the spec, each entry
rounded to 4 decimal places.  This is the comparison matrix for the
refinement claim about the Rotation Builder; it is also exactly the matrix
the repository unit test `rotation_matrix_test` expects. -/
noncomputable def spec_rot_matrix (alpha beta gamma : ℝ) : Matrix (Fin 3) (Fin 3) ℝ :=
  !![roundDp4 (Real.cos alpha * Real.cos beta),
     roundDp4 (Real.cos alpha * Real.sin beta * Real.sin gamma - Real.sin alpha * Real.cos gamma),
     roundDp4 (Real.sin alpha * Real.sin gamma + Real.cos alpha * Real.cos gamma * Real.sin beta);
     roundDp4 (Real.cos beta * Real.sin alpha),
     roundDp4 (Real.cos alpha * Real.cos gamma + Real.sin alpha * Real.sin beta * Real.sin gamma),
     roundDp4 (Real.cos gamma * Real.sin alpha * Real.sin beta - Real.cos alpha * Real.sin gamma);
     roundDp4 (-Real.sin beta),
     roundDp4 (Real.cos beta * Real.sin gamma),
     roundDp4 (Real.cos beta * Real.cos gamma)]

/-- The per-leg binding `let end_pos = target_pos - dist` inside the closure
of `Kinematics::inverse_kinematics`, where `dist` ranges over
`platform.arm_positions`.  The rotation matrix computed one line earlier is
never applied (the source comment reads `fix to multiply against rotation
matrix`), and the motor position is never subtracted. -/
noncomputable def code_leg_vectors (target_pos : Point) (platform : Platform) :
    Fin 6 → Point :=
  fun i => Point.sub target_pos (platform.arm_positions i)

/-- Modelled from the spec, section 4.2: the Leg Vector Resolver formula
`leg_vector_i = target_position + rotation * attachment_i - motor_position_i`,
with the matrix applied row by row. -/
noncomputable def spec_leg_vector (target_pos : Point) (rot : Matrix (Fin 3) (Fin 3) ℝ)
    (attachment motor_pos : Point) : Point :=
  ⟨target_pos.x + (rot 0 0 * attachment.x + rot 0 1 * attachment.y + rot 0 2 * attachment.z)
      - motor_pos.x,
   target_pos.y + (rot 1 0 * attachment.x + rot 1 1 * attachment.y + rot 1 2 * attachment.z)
      - motor_pos.y,
   target_pos.z + (rot 2 0 * attachment.x + rot 2 1 * attachment.y + rot 2 2 * attachment.z)
      - motor_pos.z⟩

/-- The function `Kinematics::inverse_kinematics(&self, target_pos,
target_orientation, platform) -> Array1<f64>`.  The source first computes the
rotation matrix (bound to `platform_ore` and then never used), then maps each
arm position to `calc_servo_pos(target_pos - dist, motor.direction)`.  As
written the source does not type-check (the closure discards the angle with a
trailing semicolon and collects into `[Point; 6]` while the function returns
`Array1<f64>`); the embedding models the per-leg value the source computes.
The return type is a bare array of six reals: no `Result`, no
`KinematicsError`. -/
noncomputable def Kinematics.inverse_kinematics (k : Kinematics) (target_pos : Point)
    (target_orientation : Orientation) (platform : Platform) : Fin 6 → ℝ :=
  let _platform_ore := calc_rot_matrix target_orientation.roll target_orientation.pitch
    target_orientation.yaw
  fun i => k.calc_servo_pos (code_leg_vectors target_pos platform i) (k.motors i).direction

end KinematicsController

namespace KinematicsController

/-- Modelled from the spec, section 4.3 step 2: the cosine argument
`phi = (d ^ 2 + bottom_length ^ 2 - top_length ^ 2) / (2 * bottom_length * r)`
with `d` the full 3D norm and `r` the horizontal projection norm of the leg
vector.  Comparison value for the refinement claim about `servo_phi`. -/
noncomputable def spec_servo_phi (top_length bottom_length : ℝ) (ep : Point) : ℝ :=
  (l2_norm [ep.x, ep.y, ep.z] ^ 2 + bottom_length ^ 2 - top_length ^ 2) /
    (2 * bottom_length * l2_norm [ep.x, ep.y])

/-- A motor record whose fields are irrelevant to `calc_servo_pos` (the
solver reads only the leg lengths of the `Kinematics` record). -/
noncomputable def motor0 : Motor :=
  ⟨⟨0, 0, 0⟩, MotorId.One, Direction.Left⟩

/-- Fixture for the zero-horizontal-projection input: both leg lengths 1. -/
noncomputable def kC1 : Kinematics := ⟨1, 1, fun _ => motor0⟩

/-- Fixture for the cosine-argument formula: top length 1, bottom length 2. -/
noncomputable def kC4 : Kinematics := ⟨1, 2, fun _ => motor0⟩

/-- Fixture for the NaN-propagation input: top length 2, bottom length 1. -/
noncomputable def kC6 : Kinematics := ⟨2, 1, fun _ => motor0⟩

/-- Fixture for the acos-wrapping input: both leg lengths 1/2. -/
noncomputable def kC7 : Kinematics := ⟨1 / 2, 1 / 2, fun _ => motor0⟩

/-- Platform fixture with every attachment offset (1, 2, 3). -/
noncomputable def platC2 : Platform := ⟨⟨0, 0, 0⟩, fun _ => ⟨1, 2, 3⟩⟩

/-- Platform fixture with every attachment offset (0, 0, -1). -/
noncomputable def platC5 : Platform := ⟨⟨0, 0, 0⟩, fun _ => ⟨0, 0, -1⟩⟩

@[simp] lemma fmod1_zero : fmod1 0 = 0 := by
  simp [fmod1, trunc]

@[simp] lemma fmod1_one : fmod1 1 = 0 := by
  simp [fmod1, trunc]

lemma atan2_pos_zero (y : ℝ) (hy : 0 < y) : atan2 y 0 = Real.pi / 2 := by
  simp [atan2, hy, lt_irrefl]

lemma atan2_zero_pos (x : ℝ) (hx : 0 < x) : atan2 0 x = 0 := by
  simp [atan2, hx]

lemma real_sqrt_eq (a b : ℝ) (hb : 0 ≤ b) (h : b ^ 2 = a) : Real.sqrt a = b := by
  rw [← h, Real.sqrt_sq hb]

/-- On a leg vector with zero x and y components the horizontal projection
norm is 0, so the denominator of `servo_phi` is 0.  The IEEE source divides
by this zero (producing an infinity or NaN); under the Lean convention the
division yields 0. -/
lemma servo_phi_zero_xy (k : Kinematics) (z : ℝ) : servo_phi k ⟨0, 0, z⟩ = 0 := by
  unfold servo_phi l2_norm
  simp

/-- For any leg lengths, the solver maps a vertically pointing leg vector
(zero horizontal projection) to the angle `pi` on the Left branch instead of
failing. -/
lemma calc_servo_pos_left_vertical (k : Kinematics) (z : ℝ) (hz : 0 < z) :
    k.calc_servo_pos ⟨0, 0, z⟩ Direction.Left = Real.pi := by
  show atan2 z 0 + Real.arccos (fmod1 (servo_phi k ⟨0, 0, z⟩)) = Real.pi
  rw [servo_phi_zero_xy, fmod1_zero, Real.arccos_zero, atan2_pos_zero z hz]
  ring

/-- C8: for the zero orientation (0, 0, 0) the Rotation Builder returns
exactly the 3 by 3 identity matrix: every diagonal entry is exactly 1 and
every off-diagonal entry exactly 0 after the 4-decimal rounding. -/
theorem calc_rot_matrix_zero_eq_identity : calc_rot_matrix 0 0 0 = 1 := by
  rw [Matrix.one_fin_three]
  ext i j
  fin_cases i <;> fin_cases j <;>
    simp [calc_rot_matrix, Matrix.cons_val_zero, Matrix.cons_val_one, Matrix.head_cons,
      Matrix.cons_val_two, Matrix.tail_cons]

/-- C1: the claim says that for zero horizontal projection norm or an
out-of-range cosine argument, solve returns InvalidTargetPosition and never
divides by zero or wraps the acos argument.  The code has no error path at
all: at the leg vector (0, 0, 1) with both leg lengths 1 the horizontal
projection norm is 0, the source divides by that zero, wraps the quotient
with the fmod operation, and returns the angle pi (the embedding maps the
IEEE division by zero to the Lean junk value 0, on which the code path then
produces pi). -/
theorem calc_servo_pos_no_error_at_zero_projection :
    l2_norm [(0 : ℝ), 0] = 0 ∧
    kC1.calc_servo_pos ⟨0, 0, 1⟩ Direction.Left = Real.pi := by
  constructor
  · unfold l2_norm
    simp
  · exact calc_servo_pos_left_vertical kC1 1 one_pos

/-- C2: the claim says each leg vector is
`target_position + rotation * attachment - motor_position`.  The code
computes `target_pos - arm_position`, ignoring the rotation matrix and the
motor position: at target (0, 0, 0), zero rotation, attachment (1, 2, 3) and
motor position (4, 5, 6), the code yields (-1, -2, -3) while the claimed
formula yields (-3, -3, -3). -/
theorem code_leg_vector_ignores_rotation_and_motor :
    code_leg_vectors ⟨0, 0, 0⟩ platC2 0 = ⟨-1, -2, -3⟩ ∧
    spec_leg_vector ⟨0, 0, 0⟩ 1 ⟨1, 2, 3⟩ ⟨4, 5, 6⟩ = ⟨-3, -3, -3⟩ ∧
    (Point.mk (-1) (-2) (-3)) ≠ Point.mk (-3) (-3) (-3) := by
  refine ⟨?_, ?_, ?_⟩
  · simp [code_leg_vectors, platC2, Point.sub, Point.mk.injEq]
  · simp [spec_leg_vector, Matrix.one_apply, Point.mk.injEq]
    norm_num
  · simp only [ne_eq, Point.mk.injEq, not_and]
    intro h
    norm_num at h

/-- C3: the claim says the builder computes the documented matrix
`Rz(yaw) * Ry(pitch) * Rx(roll)` entry for entry.  Two discrepancies refute
it.  First, the builder is called as `calc_rot_matrix(roll, pitch, yaw)` but
uses its first parameter in the yaw slots: at (roll, pitch, yaw) =
(0, 0, pi/2) the code entry (0,0) is 1 while the documented matrix has 0.
Second, code entry (0,1) reads `sin gamma * sin alpha` where the formula has
`sin alpha * cos gamma`: at all three angles pi/2 the code entry (0,1) is -1
while the documented matrix has 0.  The repository unit test
`rotation_matrix_test` expects the documented values and fails on the code. -/
theorem calc_rot_matrix_differs_from_spec_formula :
    (calc_rot_matrix 0 0 (Real.pi / 2)) 0 0 = 1 ∧
    (spec_rot_matrix (Real.pi / 2) 0 0) 0 0 = 0 ∧
    (calc_rot_matrix (Real.pi / 2) (Real.pi / 2) (Real.pi / 2)) 0 1 = -1 ∧
    (spec_rot_matrix (Real.pi / 2) (Real.pi / 2) (Real.pi / 2)) 0 1 = 0 ∧
    (1 : ℝ) ≠ 0 ∧ (-1 : ℝ) ≠ 0 := by
  refine ⟨?_, ?_, ?_, ?_, ?_, ?_⟩
  · simp [calc_rot_matrix]
  · simp [spec_rot_matrix, Real.cos_pi_div_two]
  · simp [calc_rot_matrix, Real.cos_pi_div_two, Real.sin_pi_div_two]
  · simp [spec_rot_matrix, Real.cos_pi_div_two, Real.sin_pi_div_two]
  · norm_num
  · norm_num

/-- C4: the claim says the cosine argument is
`(d ^ 2 + bottom ^ 2 - top ^ 2) / (2 * bottom * r)`.  The code adds the
unsquared norm `d`: at leg vector (0, 3, 4) (so d = 5, r = 3) with top
length 1 and bottom length 2 the code computes 2/3 while the claimed formula
gives 7/3. -/
theorem servo_phi_uses_unsquared_norm :
    servo_phi kC4 ⟨0, 3, 4⟩ = 2 / 3 ∧
    spec_servo_phi 1 2 ⟨0, 3, 4⟩ = 7 / 3 ∧
    (2 / 3 : ℝ) ≠ 7 / 3 := by
  have h3 : l2_norm [(0 : ℝ), 3, 4] = 5 := by
    unfold l2_norm
    norm_num
    exact real_sqrt_eq 25 5 (by norm_num) (by norm_num)
  have h2 : l2_norm [(0 : ℝ), 3] = 3 := by
    unfold l2_norm
    norm_num
    exact real_sqrt_eq 9 3 (by norm_num) (by norm_num)
  refine ⟨?_, ?_, by norm_num⟩
  · unfold servo_phi kC4
    rw [h3, h2]
    norm_num
  · unfold spec_servo_phi
    rw [h3, h2]
    norm_num

/-- C5: the claim says inverse_kinematics returns six angles or a typed
KinematicsError, short-circuiting on the first leg failure.  The embedded
code returns a bare array of six angles with no error path: at target
(0, 0, 0), zero orientation, every attachment (0, 0, -1) and both leg
lengths 1, every leg has zero horizontal projection (unreachable per the
spec), yet the call returns the angle pi for all six legs. -/
theorem inverse_kinematics_no_error_path :
    kC1.inverse_kinematics ⟨0, 0, 0⟩ ⟨0, 0, 0⟩ platC5 = fun _ => Real.pi := by
  funext i
  show kC1.calc_servo_pos (code_leg_vectors ⟨0, 0, 0⟩ platC5 i) (kC1.motors i).direction
      = Real.pi
  have hv : code_leg_vectors ⟨0, 0, 0⟩ platC5 i = ⟨0, 0, 1⟩ := by
    simp [code_leg_vectors, platC5, Point.sub, Point.mk.injEq]
  rw [hv]
  exact calc_servo_pos_left_vertical kC1 1 one_pos

/-- C6: the claim says a NaN cosine argument is rejected before any
trigonometric call and surfaced as InvalidTargetPosition.  The code performs
no check whatsoever: at leg vector (0, 0, 3) with top length 2 and bottom
length 1 the source computes phi = 0.0/0.0 (a NaN, which then flows through
the fmod and acos calls and is returned as the angle); the solver has no
rejection branch and unconditionally returns a number (the embedding, which
maps 0/0 to the junk value 0, returns pi on the same path). -/
theorem calc_servo_pos_no_nan_guard :
    servo_phi kC6 ⟨0, 0, 3⟩ = 0 ∧
    kC6.calc_servo_pos ⟨0, 0, 3⟩ Direction.Left = Real.pi := by
  constructor
  · exact servo_phi_zero_xy kC6 3
  · exact calc_servo_pos_left_vertical kC6 3 (by norm_num)

/-- C7 counterexample: the claim says the solver returns
`base + acos(phi)` on the Left branch.  At leg vector (0, 1, 0) with both
leg lengths 1/2 the cosine argument is exactly 1, the code wraps it to
`1.0 % 1.0 = 0.0` and returns `base + acos(0) = pi/2`, while the claimed
value is `base + acos(1) = 0`. -/
theorem calc_servo_pos_wraps_acos_argument :
    kC7.calc_servo_pos ⟨0, 1, 0⟩ Direction.Left = Real.pi / 2 ∧
    atan2 (0 : ℝ) 1 + Real.arccos (servo_phi kC7 ⟨0, 1, 0⟩) = 0 ∧
    Real.pi / 2 ≠ (0 : ℝ) := by
  have hphi : servo_phi kC7 ⟨0, 1, 0⟩ = 1 := by
    have h3 : l2_norm [(0 : ℝ), 1, 0] = 1 := by
      unfold l2_norm
      norm_num
    have h2 : l2_norm [(0 : ℝ), 1] = 1 := by
      unfold l2_norm
      norm_num
    unfold servo_phi kC7
    rw [h3, h2]
    norm_num
  refine ⟨?_, ?_, ?_⟩
  · show atan2 (0 : ℝ) 1 + Real.arccos (fmod1 (servo_phi kC7 ⟨0, 1, 0⟩)) = Real.pi / 2
    rw [hphi, fmod1_one, Real.arccos_zero, atan2_zero_pos 1 one_pos]
    ring
  · rw [hphi, Real.arccos_one, atan2_zero_pos 1 one_pos]
    ring
  · exact ne_of_gt (by have := Real.pi_pos; linarith)

/-- C7 amended: for every kinematics record and leg vector, the solver
returns `base + acos(phi % 1.0)` on the Left branch and
`base - acos(phi % 1.0)` on the Right branch, where `base = atan2(z, y)` and
`phi` is the cosine argument the code computes; flipping the direction from
Left to Right flips exactly the sign of the acos term. -/
theorem calc_servo_pos_direction_sign (k : Kinematics) (ep : Point) :
    k.calc_servo_pos ep Direction.Left
        = atan2 ep.z ep.y + Real.arccos (fmod1 (servo_phi k ep)) ∧
    k.calc_servo_pos ep Direction.Right
        = atan2 ep.z ep.y - Real.arccos (fmod1 (servo_phi k ep)) ∧
    k.calc_servo_pos ep Direction.Left + k.calc_servo_pos ep Direction.Right
        = 2 * atan2 ep.z ep.y ∧
    k.calc_servo_pos ep Direction.Left - k.calc_servo_pos ep Direction.Right
        = 2 * Real.arccos (fmod1 (servo_phi k ep)) := by
  refine ⟨rfl, rfl, ?_, ?_⟩
  · show atan2 ep.z ep.y + Real.arccos (fmod1 (servo_phi k ep))
        + (atan2 ep.z ep.y - Real.arccos (fmod1 (servo_phi k ep)))
        = 2 * atan2 ep.z ep.y
    ring
  · show atan2 ep.z ep.y + Real.arccos (fmod1 (servo_phi k ep))
        - (atan2 ep.z ep.y - Real.arccos (fmod1 (servo_phi k ep)))
        = 2 * Real.arccos (fmod1 (servo_phi k ep))
    ring

end KinematicsController

namespace MaestroControl

/-- The enum `MaestroError` from `error.rs` of the maestro-control crate. -/
inductive MaestroError
  | UnableToConnect
  | UnableToSend
  | InvalidChannel
  | UnableToReceive
  | InvalidMovingState
  | OutOfBounds

/-- Model of the `serialport::SerialPort` collaborator stored inside
`Maestro`: whether a `write` call succeeds, and the two bytes a `read_exact`
call returns (`none` when the read fails).  Opening the port
(`Maestro::new`) is I/O and is not modelled; every theorem quantifies over
the port state. -/
structure SerialPort where
  writeOk : Bool
  readBytes : Option (Nat × Nat)

/-- The constant `MAX_CHANNEL: u8 = 11`. -/
def MAX_CHANNEL : Nat := 11

/-- The function `verify_channel_range(channel: u8)`: error on
`channel > MAX_CHANNEL`, otherwise ok.  Channels are `u8` values, modelled
as naturals. -/
def verify_channel_range (channel : Nat) : Except MaestroError Unit :=
  if channel > MAX_CHANNEL then Except.error MaestroError.InvalidChannel
  else Except.ok ()

/-- The function `form_data(command, channel, data: u16) -> [u8; 4]`:
`[command, channel, data & 0x7F, (data >> 7) & 0x7F]`, with the bit
operations written out on naturals. -/
def form_data (command channel data : Nat) : List Nat :=
  [command, channel, data % 128, (data / 128) % 128]

/-- The method `Maestro::send_command_no_response`: writes the frame to the
serial port, failing with `UnableToSend` when the write fails.  The second
component of the result is the list of frames written to the port. -/
def send_command_no_response (p : SerialPort) (data : List Nat) :
    Except MaestroError Unit × List (List Nat) :=
  if p.writeOk then (Except.ok (), [data])
  else (Except.error MaestroError.UnableToSend, [])

/-- The method `Maestro::send_command`: writes the frame, fails with
`UnableToSend` when the write fails, then reads two bytes `b0` and `b1`,
fails with `UnableToReceive` when the read fails, and returns
`b0 + 256 * b1` as an `i32`. -/
def send_command (p : SerialPort) (data : List Nat) :
    Except MaestroError Int × List (List Nat) :=
  if p.writeOk then
    match p.readBytes with
    | some b => (Except.ok ((b.1 : Int) + 256 * (b.2 : Int)), [data])
    | none => (Except.error MaestroError.UnableToReceive, [data])
  else (Except.error MaestroError.UnableToSend, [])

/-- The method `Maestro::set_acceleration(channel, acceleration)`: channel
check, then `send_command_no_response(form_data(0x84, channel, acceleration))`. -/
def set_acceleration (p : SerialPort) (channel acceleration : Nat) :
    Except MaestroError Unit × List (List Nat) :=
  match verify_channel_range channel with
  | Except.error e => (Except.error e, [])
  | Except.ok _ => send_command_no_response p (form_data 0x84 channel acceleration)

/-- The method `Maestro::set_speed(channel, speed)`: channel check, then
`send_command_no_response(form_data(0x84, channel, speed))` (the source
sends command byte `0x84` here as well). -/
def set_speed (p : SerialPort) (channel speed : Nat) :
    Except MaestroError Unit × List (List Nat) :=
  match verify_channel_range channel with
  | Except.error e => (Except.error e, [])
  | Except.ok _ => send_command_no_response p (form_data 0x84 channel speed)

/-- The method `Maestro::set_position(channel, position)`: channel check,
then `send_command_no_response(form_data(0x84, channel, q))` where `q` is
`(position as f32 * 22.22222222) as u16`.  That IEEE `f32` arithmetic is not
shallow-embeddable; the conversion is therefore an explicit parameter
`conv`, and every theorem below holds for every such conversion. -/
def set_position (conv : Nat → Nat) (p : SerialPort) (channel position : Nat) :
    Except MaestroError Unit × List (List Nat) :=
  match verify_channel_range channel with
  | Except.error e => (Except.error e, [])
  | Except.ok _ => send_command_no_response p (form_data 0x84 channel (conv position))

/-- The method `Maestro::get_position(channel)`: channel check, then
`send_command([0x90, channel])`. -/
def get_position (p : SerialPort) (channel : Nat) :
    Except MaestroError Int × List (List Nat) :=
  match verify_channel_range channel with
  | Except.error e => (Except.error e, [])
  | Except.ok _ => send_command p [0x90, channel]

/-- The loop
`for (channel, value) in channels.into_iter().zip(values) { op(channel, value)?; } Ok(())`
shared by the three batch setters: runs the per-pair operation in order,
short-circuits on the first error via the question-mark operator, and
concatenates the frames written along the way. -/
def run_batch (f : Nat → Nat → Except MaestroError Unit × List (List Nat)) :
    List (Nat × Nat) → Except MaestroError Unit × List (List Nat)
  | [] => (Except.ok (), [])
  | cv :: rest =>
    match (f cv.1 cv.2).1 with
    | Except.error e => (Except.error e, (f cv.1 cv.2).2)
    | Except.ok _ => ((run_batch f rest).1, (f cv.1 cv.2).2 ++ (run_batch f rest).2)

/-- The method `Maestro::set_accelerations(channels, accels)`. -/
def set_accelerations (p : SerialPort) (channels accels : List Nat) :
    Except MaestroError Unit × List (List Nat) :=
  run_batch (set_acceleration p) (channels.zip accels)

/-- The method `Maestro::set_speeds(channels, speeds)`. -/
def set_speeds (p : SerialPort) (channels speeds : List Nat) :
    Except MaestroError Unit × List (List Nat) :=
  run_batch (set_speed p) (channels.zip speeds)

/-- The method `Maestro::set_positions(channels, positions)`. -/
def set_positions (conv : Nat → Nat) (p : SerialPort) (channels positions : List Nat) :
    Except MaestroError Unit × List (List Nat) :=
  run_batch (set_position conv p) (channels.zip positions)

lemma verify_channel_range_ok (c : Nat) (hc : c ≤ 11) :
    verify_channel_range c = Except.ok () := by
  simp [verify_channel_range, MAX_CHANNEL, Nat.not_lt.mpr hc]

lemma set_position_ok (conv : Nat → Nat) (p : SerialPort) (c v : Nat)
    (hc : c ≤ 11) (hw : p.writeOk = true) :
    set_position conv p c v = (Except.ok (), [form_data 0x84 c (conv v)]) := by
  simp [set_position, verify_channel_range_ok c hc, send_command_no_response, hw]

lemma set_speed_ok (p : SerialPort) (c v : Nat) (hc : c ≤ 11)
    (hw : p.writeOk = true) :
    set_speed p c v = (Except.ok (), [form_data 0x84 c v]) := by
  simp [set_speed, verify_channel_range_ok c hc, send_command_no_response, hw]

lemma set_acceleration_ok (p : SerialPort) (c v : Nat) (hc : c ≤ 11)
    (hw : p.writeOk = true) :
    set_acceleration p c v = (Except.ok (), [form_data 0x84 c v]) := by
  simp [set_acceleration, verify_channel_range_ok c hc, send_command_no_response, hw]

lemma zip_eq_zip_take (l r : List Nat) :
    l.zip r = (l.take (min l.length r.length)).zip (r.take (min l.length r.length)) := by
  induction l generalizing r with
  | nil => simp
  | cons a t ih =>
    cases r with
    | nil => simp
    | cons b u =>
      simp only [List.length_cons, Nat.succ_min_succ, List.take_succ_cons,
        List.zip_cons_cons]
      rw [← ih u]

lemma run_batch_all_ok (f : Nat → Nat → Except MaestroError Unit × List (List Nat))
    (l : List (Nat × Nat))
    (h : ∀ cv ∈ l, (f cv.1 cv.2).1 = Except.ok () ∧ (f cv.1 cv.2).2.length = 1) :
    (run_batch f l).1 = Except.ok () ∧ (run_batch f l).2.length = l.length := by
  induction l with
  | nil => simp [run_batch]
  | cons cv rest ih =>
    have hcv := h cv (List.mem_cons_self cv rest)
    have hrest := ih (fun x hx => h x (List.mem_cons_of_mem cv hx))
    simp only [run_batch, hcv.1]
    refine ⟨hrest.1, ?_⟩
    simp only [List.length_append, hcv.2, hrest.2, List.length_cons]
    omega

/-- C9: for every channel index above 11 each single-channel operation
(set_position, set_speed, set_acceleration, get_position) returns
InvalidChannel and writes nothing to the serial port; for every channel
index 0 through 11 the channel check passes and the command frame is
written whenever the port accepts the write (for `get_position` the
subsequent two-byte read may still fail without affecting the write). -/
theorem single_channel_ops_guard_channel (conv : Nat → Nat) (p : SerialPort)
    (ch v : Nat) :
    if 11 < ch then
      set_position conv p ch v = (Except.error MaestroError.InvalidChannel, []) ∧
      set_speed p ch v = (Except.error MaestroError.InvalidChannel, []) ∧
      set_acceleration p ch v = (Except.error MaestroError.InvalidChannel, []) ∧
      get_position p ch = (Except.error MaestroError.InvalidChannel, [])
    else
      verify_channel_range ch = Except.ok () ∧
      (set_position conv p ch v).2
          = (if p.writeOk then [form_data 0x84 ch (conv v)] else []) ∧
      (set_speed p ch v).2 = (if p.writeOk then [form_data 0x84 ch v] else []) ∧
      (set_acceleration p ch v).2 = (if p.writeOk then [form_data 0x84 ch v] else []) ∧
      (get_position p ch).2 = (if p.writeOk then [[0x90, ch]] else []) := by
  by_cases hch : 11 < ch
  · rw [if_pos hch]
    have hv : verify_channel_range ch = Except.error MaestroError.InvalidChannel := by
      simp [verify_channel_range, MAX_CHANNEL, hch]
    refine ⟨?_, ?_, ?_, ?_⟩ <;>
      simp [set_position, set_speed, set_acceleration, get_position, hv]
  · rw [if_neg hch]
    have hv := verify_channel_range_ok ch (Nat.le_of_not_lt hch)
    refine ⟨hv, ?_, ?_, ?_, ?_⟩ <;>
      cases hp : p.writeOk <;>
        cases hr : p.readBytes <;>
          simp [set_position, set_speed, set_acceleration, get_position, hv,
            send_command_no_response, send_command, hp, hr]

/-- C10: each batch setter processes exactly the zip of its two argument
vectors: the call equals the call on the two prefixes of length
`min channels.length values.length` (the remaining entries of the longer
vector are silently ignored), and when every channel is valid and the port
accepts writes, the result is Ok with exactly one frame written per
processed pair. -/
theorem batch_ops_zip_min (conv : Nat → Nat) (p : SerialPort)
    (channels vals : List Nat) :
    (set_positions conv p channels vals
        = set_positions conv p (channels.take (min channels.length vals.length))
            (vals.take (min channels.length vals.length)) ∧
     set_speeds p channels vals
        = set_speeds p (channels.take (min channels.length vals.length))
            (vals.take (min channels.length vals.length)) ∧
     set_accelerations p channels vals
        = set_accelerations p (channels.take (min channels.length vals.length))
            (vals.take (min channels.length vals.length))) ∧
    ((∀ c ∈ channels, c ≤ 11) → p.writeOk = true →
      (set_positions conv p channels vals).1 = Except.ok () ∧
      (set_positions conv p channels vals).2.length = min channels.length vals.length ∧
      (set_speeds p channels vals).1 = Except.ok () ∧
      (set_speeds p channels vals).2.length = min channels.length vals.length ∧
      (set_accelerations p channels vals).1 = Except.ok () ∧
      (set_accelerations p channels vals).2.length = min channels.length vals.length) := by
  have hzip : channels.zip vals
      = (channels.take (min channels.length vals.length)).zip
          (vals.take (min channels.length vals.length)) := zip_eq_zip_take channels vals
  constructor
  · exact ⟨by rw [set_positions, set_positions, hzip],
      by rw [set_speeds, set_speeds, hzip],
      by rw [set_accelerations, set_accelerations, hzip]⟩
  · intro hch hw
    have hmem : ∀ cv ∈ channels.zip vals, cv.1 ≤ 11 := by
      rintro ⟨a, b⟩ hcv
      exact hch a (List.of_mem_zip hcv).1
    have hlen : (channels.zip vals).length = min channels.length vals.length :=
      List.length_zip channels vals
    have h1 := run_batch_all_ok (set_position conv p) (channels.zip vals)
      (fun cv hcv => by rw [set_position_ok conv p cv.1 cv.2 (hmem cv hcv) hw]
                        exact ⟨rfl, rfl⟩)
    have h2 := run_batch_all_ok (set_speed p) (channels.zip vals)
      (fun cv hcv => by rw [set_speed_ok p cv.1 cv.2 (hmem cv hcv) hw]
                        exact ⟨rfl, rfl⟩)
    have h3 := run_batch_all_ok (set_acceleration p) (channels.zip vals)
      (fun cv hcv => by rw [set_acceleration_ok p cv.1 cv.2 (hmem cv hcv) hw]
                        exact ⟨rfl, rfl⟩)
    exact ⟨h1.1, by rw [set_positions, h1.2, hlen],
      h2.1, by rw [set_speeds, h2.2, hlen],
      h3.1, by rw [set_accelerations, h3.2, hlen]⟩

/-- Witness for the batch theorem: with channels [0, 1, 2] and values
[10, 20] (unequal lengths), a port that accepts writes and the identity
conversion, all hypotheses hold: the result is Ok and exactly
min 3 2 = 2 pairs are commanded, the extra channel 2 is ignored. -/
theorem batch_ops_zip_min_witness :
    (∀ c ∈ ([0, 1, 2] : List Nat), c ≤ 11) ∧
    ((set_positions (fun v => v) ⟨true, none⟩ [0, 1, 2] [10, 20]).1 = Except.ok () ∧
     (set_positions (fun v => v) ⟨true, none⟩ [0, 1, 2] [10, 20]).2.length
        = min ([0, 1, 2] : List Nat).length ([10, 20] : List Nat).length ∧
     (set_speeds ⟨true, none⟩ [0, 1, 2] [10, 20]).1 = Except.ok () ∧
     (set_speeds ⟨true, none⟩ [0, 1, 2] [10, 20]).2.length
        = min ([0, 1, 2] : List Nat).length ([10, 20] : List Nat).length ∧
     (set_accelerations ⟨true, none⟩ [0, 1, 2] [10, 20]).1 = Except.ok () ∧
     (set_accelerations ⟨true, none⟩ [0, 1, 2] [10, 20]).2.length
        = min ([0, 1, 2] : List Nat).length ([10, 20] : List Nat).length) :=
  ⟨by decide,
    (batch_ops_zip_min (fun v => v) ⟨true, none⟩ [0, 1, 2] [10, 20]).2 (by decide) rfl⟩

end MaestroControl
